import Mathlib

/-!
Verification development for the SNV benchmarking dashboard ingestion pipeline.

Shallow embedding of the metadata normalization & ingestion subsystem:
`direct_db_population.py` (enum mapping, dimension get-or-create, experiment
assembly), `upload_handler.py` (validation, id allocation, upload
orchestration), `happy_parser.py` (result-file parsing), `delete_handler.py`
(authorization and cascading delete) and `csv_backup.py` (flat-file mirror).

Modelling conventions:
- SQLAlchemy tables become Lean lists of rows; `session.query(...).first()`
  becomes `List.find?`; autoincrement ids come from `freshId`.
- Python dicts from the upload form become the `Meta` structure whose fields
  are `Option String` (a missing key is `none`); the prepared dict produced by
  `prepare_metadata_dict` becomes the total structure `DbMeta`.
- Float/int coercion (`safe_float`, `safe_int`) is modelled as a recognizer
  over the raw decimal string that keeps the normalized text: no claim under
  verification distinguishes numerically-equal-but-textually-different inputs,
  and exotic float syntax (exponents, inf/nan) never reaches these calls in
  the claims' scenarios.
- The file system (`DATA_FOLDER`, the CSV mirror, the archive folders) becomes
  explicit association lists inside `World`; wall-clock timestamps are
  abstracted by a fixed string.
-/

namespace SnvDash

/-! ## String primitives

Python's `str.strip()/lower()/upper()/replace()/split()/startswith()/endswith()`
are re-implemented here by structural recursion over the character list, so
that every definition kernel-evaluates on concrete inputs (the standard
library versions use well-founded recursion / byte positions that do not
reduce).  Stripping covers the ASCII whitespace characters and case mapping
is ASCII — all the inputs these functions see in the pipeline. -/

def isPyWs (c : Char) : Bool := c == ' ' || c == '\t' || c == '\n' || c == '\r'

def trimList (l : List Char) : List Char :=
  ((l.dropWhile isPyWs).reverse.dropWhile isPyWs).reverse

def strTrim (s : String) : String := String.mk (trimList s.toList)

def strLower (s : String) : String := String.mk (s.toList.map Char.toLower)

def strUpper (s : String) : String := String.mk (s.toList.map Char.toUpper)

def removeAllChar (c : Char) (s : String) : String :=
  String.mk (s.toList.filter (fun x => x != c))

def splitOnCharAux (c : Char) : List Char → List Char → List (List Char)
  | [], acc => [acc.reverse]
  | x :: xs, acc =>
    if x == c then acc.reverse :: splitOnCharAux c xs []
    else splitOnCharAux c xs (x :: acc)

def splitOnChar (c : Char) (s : String) : List String :=
  (splitOnCharAux c s.toList []).map String.mk

def strStartsWith (s p : String) : Bool := p.toList.isPrefixOf s.toList

def strEndsWith (s p : String) : Bool := p.toList.reverse.isPrefixOf s.toList.reverse

def replaceCharStr (c : Char) (rep : String) (s : String) : String :=
  String.mk (s.toList.foldr (fun x acc => if x == c then rep.toList ++ acc else x :: acc) [])

/-! ## Enums from `models.py` -/

inductive SeqTechName
  | ILLUMINA | MGI | ONT | PACBIO_ | TENX
deriving DecidableEq, Repr

inductive SeqTechTarget
  | WGS | WES
deriving DecidableEq, Repr

inductive SeqTechPlatformType
  | SRS | LRS | SYNTHETIC
deriving DecidableEq, Repr

inductive CallerName
  | DEEPVARIANT | GATK | GATK3 | GATK4 | CLAIR3 | DRAGEN
  | LONGRANGER | MEGABOLT | NANOCALLER | PARABRICK | PEPPER
deriving DecidableEq, Repr

inductive CallerType
  | ML | TRADITIONAL
deriving DecidableEq, Repr

inductive TruthSetName
  | GIAB | CMRG | T2T
deriving DecidableEq, Repr

inductive TruthSetReference
  | GRCH37 | GRCH38
deriving DecidableEq, Repr

inductive TruthSetSample
  | HG001 | HG002 | HG003 | HG004 | HCC1395
deriving DecidableEq, Repr

inductive VariantOrigin
  | GERMLINE | SOMATIC
deriving DecidableEq, Repr

inductive VariantSize
  | SMALL | LARGE
deriving DecidableEq, Repr

inductive VariantTypeE
  | SNP | INDEL | INS | DEL | SNPINDEL
deriving DecidableEq, Repr

inductive BenchmarkToolName
  | HAPPY | VCFDIST | TRUVARI
deriving DecidableEq, Repr

/-! ## `map_enum` from `direct_db_population.py`

`map_enum(field_name, value)` first rejects falsy values, then normalizes
with `str(value).strip().lower()` and looks the result up in the per-field
dictionary `ENUM_MAPPINGS[field_name]`.  We split the dispatch on
`field_name` into one Lean function per category. -/

def cleanEnumValue : Option String → Option String
  | none => none
  | some s => if s = "" then none else some (strLower (strTrim s))

def mapTechnology (v : Option String) : Option SeqTechName :=
  match cleanEnumValue v with
  | none => none
  | some s =>
    if s = "illumina" then some .ILLUMINA
    else if s = "mgi" then some .MGI
    else if s = "ont" then some .ONT
    else if s = "pacbio" then some .PACBIO_
    else if s = "10x" then some .TENX
    else none

def mapTarget (v : Option String) : Option SeqTechTarget :=
  match cleanEnumValue v with
  | none => none
  | some s =>
    if s = "wgs" then some .WGS
    else if s = "wes" then some .WES
    else none

def mapPlatformType (v : Option String) : Option SeqTechPlatformType :=
  match cleanEnumValue v with
  | none => none
  | some s =>
    if s = "srs" then some .SRS
    else if s = "lrs" then some .LRS
    else if s = "synthetic" then some .SYNTHETIC
    else none

def mapCallerName (v : Option String) : Option CallerName :=
  match cleanEnumValue v with
  | none => none
  | some s =>
    if s = "deepvariant" then some .DEEPVARIANT
    else if s = "gatk" then some .GATK
    else if s = "gatk3" then some .GATK3
    else if s = "gatk4" then some .GATK4
    else if s = "clair3" then some .CLAIR3
    else if s = "dragen" then some .DRAGEN
    else if s = "longranger" then some .LONGRANGER
    else if s = "megabolt" then some .MEGABOLT
    else if s = "nanocaller" then some .NANOCALLER
    else if s = "parabrick" then some .PARABRICK
    else if s = "pepper" then some .PEPPER
    else none

def mapCallerType (v : Option String) : Option CallerType :=
  match cleanEnumValue v with
  | none => none
  | some s =>
    if s = "ml" then some .ML
    else if s = "traditional" then some .TRADITIONAL
    else none

def mapTruthSetName (v : Option String) : Option TruthSetName :=
  match cleanEnumValue v with
  | none => none
  | some s =>
    if s = "giab" then some .GIAB
    else if s = "cmrg" then some .CMRG
    else if s = "t2t" then some .T2T
    else none

def mapTruthSetReference (v : Option String) : Option TruthSetReference :=
  match cleanEnumValue v with
  | none => none
  | some s =>
    if s = "grch37" then some .GRCH37
    else if s = "grch38" then some .GRCH38
    else none

def mapTruthSetSample (v : Option String) : Option TruthSetSample :=
  match cleanEnumValue v with
  | none => none
  | some s =>
    if s = "hg001" then some .HG001
    else if s = "hg002" then some .HG002
    else if s = "hg003" then some .HG003
    else if s = "hg004" then some .HG004
    else if s = "hcc1395" then some .HCC1395
    else none

def mapVariantOrigin (v : Option String) : Option VariantOrigin :=
  match cleanEnumValue v with
  | none => none
  | some s =>
    if s = "germline" then some .GERMLINE
    else if s = "somatic" then some .SOMATIC
    else none

def mapVariantSize (v : Option String) : Option VariantSize :=
  match cleanEnumValue v with
  | none => none
  | some s =>
    if s = "small" then some .SMALL
    else if s = "large" then some .LARGE
    else none

def mapVariantType (v : Option String) : Option VariantTypeE :=
  match cleanEnumValue v with
  | none => none
  | some s =>
    if s = "snp" then some .SNP
    else if s = "indel" then some .INDEL
    else if s = "ins" then some .INS
    else if s = "del" then some .DEL
    else if s = "snp+indel" then some .SNPINDEL
    else none

def mapBenchmarkToolName (v : Option String) : Option BenchmarkToolName :=
  match cleanEnumValue v with
  | none => none
  | some s =>
    if s = "hap.py" then some .HAPPY
    else if s = "vcfdist" then some .VCFDIST
    else if s = "truvari" then some .TRUVARI
    else none

/-- `map_boolean` / the upload handler's `safe_bool`: a non-bool value is
converted via `str(value).lower() == 'true'`; a missing value stringifies to
`"None"` and is therefore `false`. -/
def safe_bool (v : Option String) : Bool :=
  match v with
  | none => false
  | some s => strLower s == "true"

/-- `utils.safe_float` / the upload handler's local `safe_float`, modelled as
a decimal-literal recognizer that keeps the normalized text (see the header
note on numeric coercion): optional sign, digits, at most one decimal
point. -/
def isSimpleFloat (s : String) : Bool :=
  let body :=
    if strStartsWith s "-" || strStartsWith s "+" then String.mk (s.toList.drop 1) else s
  match splitOnChar '.' body with
  | [a] => decide (0 < a.toList.length) && a.toList.all Char.isDigit
  | [a, b] =>
    decide (0 < a.toList.length + b.toList.length) &&
      a.toList.all Char.isDigit && b.toList.all Char.isDigit
  | _ => false

def safe_float (v : Option String) : Option String :=
  match v with
  | none => none
  | some s =>
    let t := strTrim (removeAllChar ',' s)
    if isSimpleFloat t then some t else none

/-! ## Dimension rows and `get_or_create_record`

Each SQLAlchemy dimension table becomes a list of rows; `filter_by` on the
natural-key fields becomes `List.find?` with field-by-field equality (exact
equality, as in the source: enum-valued fields were normalized by `map_enum`,
free-text fields are compared verbatim). -/

def freshId (ids : List Nat) : Nat := ids.foldl Nat.max 0 + 1

/-- `get_or_create_record(session, model_class, filter_fields, all_fields)`:
return the first existing row matching the filter fields, otherwise insert a
new row (built from all fields, id assigned at flush) and return it. -/
def get_or_create_record (table : List α) (keyMatch : α → Bool)
    (mk : Nat → α) (getId : α → Nat) : α × List α :=
  match table.find? keyMatch with
  | some existing => (existing, table)
  | none =>
    let new_record := mk (freshId (table.map getId))
    (new_record, table ++ [new_record])

structure SequencingTechnologyRow where
  id : Nat
  technology : SeqTechName
  target : Option SeqTechTarget
  platform_name : String
  platform_type : Option SeqTechPlatformType
  platform_version : String
deriving DecidableEq, Repr

structure VariantCallerRow where
  id : Nat
  name : CallerName
  version : String
  callerType : Option CallerType
  model : String
deriving DecidableEq, Repr

structure AlignerRow where
  id : Nat
  name : String
  version : String
deriving DecidableEq, Repr

structure TruthSetRow where
  id : Nat
  name : TruthSetName
  version : String
  sample : Option TruthSetSample
  reference : Option TruthSetReference
deriving DecidableEq, Repr

structure BenchmarkToolRow where
  id : Nat
  name : BenchmarkToolName
  version : String
deriving DecidableEq, Repr

structure VariantRow where
  id : Nat
  variantType : Option VariantTypeE
  size : Option VariantSize
  origin : Option VariantOrigin
  is_phased : Bool
deriving DecidableEq, Repr

structure ChemistryRow where
  id : Nat
  name : String
  sequencing_technology : Option SeqTechName
  sequencing_platform : String
  version : String
deriving DecidableEq, Repr

structure QualityControlRow where
  id : Nat
  mean_coverage : Option String
  read_length : Option String
  mean_read_length : Option String
  mean_insert_size : Option String
deriving DecidableEq, Repr

/-! ## Prepared metadata (`prepare_metadata_dict` output shape)

The creators in `direct_db_population.py` are always fed the dict produced by
`prepare_metadata_dict`, in which every key below is present; so `DbMeta` is a
total structure and the creators' `metadata.get(key, default)` calls read the
field directly (the defaults only fire for absent keys, which cannot occur in
the prepared dict). -/

structure DbMeta where
  exp_name : String := ""
  description : String := ""
  technology : String := ""
  target : String := ""
  platform_name : String := ""
  platform_type : String := ""
  platform_version : String := ""
  chemistry_name : String := ""
  chemistry_version : String := ""
  caller_name : String := ""
  caller_type : String := ""
  caller_version : String := ""
  caller_model : String := ""
  aligner_name : String := ""
  aligner_version : String := ""
  truth_set_name : String := ""
  truth_set_sample : String := ""
  truth_set_version : String := ""
  truth_set_reference : String := ""
  variant_type : String := ""
  variant_size : String := ""
  variant_origin : String := ""
  is_phased : Bool := false
  benchmark_tool_name : String := ""
  benchmark_tool_version : String := ""
  mean_coverage : Option String := none
  read_length : Option String := none
  mean_insert_size : Option String := none
  mean_read_length : String := ""
  created_at : String := ""
  is_public : Bool := true
  owner_username : Option String := none
  owner_id : Option Int := none
deriving DecidableEq, Repr

/-- `create_sequencing_tech`: map the enums, bail out when technology is
unrecognized, then get-or-create on (technology, target, platform_name,
platform_type); `platform_version` is stored but not part of the key. -/
def create_sequencing_tech (table : List SequencingTechnologyRow) (metadata : DbMeta) :
    Option SequencingTechnologyRow × List SequencingTechnologyRow :=
  let tech_enum := mapTechnology (some metadata.technology)
  let target_enum := mapTarget (some metadata.target)
  let platform_type_enum := mapPlatformType (some metadata.platform_type)
  match tech_enum with
  | none => (none, table)
  | some t =>
    let (row, table') := get_or_create_record table
      (fun r => r.technology == t && r.target == target_enum &&
        r.platform_name == metadata.platform_name && r.platform_type == platform_type_enum)
      (fun i =>
        { id := i, technology := t, target := target_enum,
          platform_name := metadata.platform_name, platform_type := platform_type_enum,
          platform_version := metadata.platform_version })
      (fun r => r.id)
    (some row, table')

/-- `create_variant_caller`: key is (name, version, type); `model` stored only. -/
def create_variant_caller (table : List VariantCallerRow) (metadata : DbMeta) :
    Option VariantCallerRow × List VariantCallerRow :=
  let name_enum := mapCallerName (some metadata.caller_name)
  let type_enum := mapCallerType (some metadata.caller_type)
  match name_enum with
  | none => (none, table)
  | some n =>
    let (row, table') := get_or_create_record table
      (fun r => r.name == n && r.version == metadata.caller_version && r.callerType == type_enum)
      (fun i =>
        { id := i, name := n, version := metadata.caller_version,
          callerType := type_enum, model := metadata.caller_model })
      (fun r => r.id)
    (some row, table')

/-- `create_aligner`: skipped entirely when the free-text name is blank. -/
def create_aligner (table : List AlignerRow) (metadata : DbMeta) :
    Option AlignerRow × List AlignerRow :=
  if strTrim metadata.aligner_name = "" then (none, table)
  else
    let (row, table') := get_or_create_record table
      (fun r => r.name == metadata.aligner_name && r.version == metadata.aligner_version)
      (fun i => { id := i, name := metadata.aligner_name, version := metadata.aligner_version })
      (fun r => r.id)
    (some row, table')

/-- `create_truth_set`: bails out when the truth-set name is unrecognized. -/
def create_truth_set (table : List TruthSetRow) (metadata : DbMeta) :
    Option TruthSetRow × List TruthSetRow :=
  let name_enum := mapTruthSetName (some metadata.truth_set_name)
  let reference_enum := mapTruthSetReference (some metadata.truth_set_reference)
  let sample_enum := mapTruthSetSample (some metadata.truth_set_sample)
  match name_enum with
  | none => (none, table)
  | some n =>
    let (row, table') := get_or_create_record table
      (fun r => r.name == n && r.version == metadata.truth_set_version &&
        r.sample == sample_enum && r.reference == reference_enum)
      (fun i =>
        { id := i, name := n, version := metadata.truth_set_version,
          sample := sample_enum, reference := reference_enum })
      (fun r => r.id)
    (some row, table')

/-- `create_benchmark_tool`. -/
def create_benchmark_tool (table : List BenchmarkToolRow) (metadata : DbMeta) :
    Option BenchmarkToolRow × List BenchmarkToolRow :=
  let tool_enum := mapBenchmarkToolName (some metadata.benchmark_tool_name)
  match tool_enum with
  | none => (none, table)
  | some n =>
    let (row, table') := get_or_create_record table
      (fun r => r.name == n && r.version == metadata.benchmark_tool_version)
      (fun i => { id := i, name := n, version := metadata.benchmark_tool_version })
      (fun r => r.id)
    (some row, table')

/-- `create_variant`: always creates/fetches a row (all key fields may be
`none`/`false`). -/
def create_variant (table : List VariantRow) (metadata : DbMeta) :
    Option VariantRow × List VariantRow :=
  let type_enum := mapVariantType (some metadata.variant_type)
  let size_enum := mapVariantSize (some metadata.variant_size)
  let origin_enum := mapVariantOrigin (some metadata.variant_origin)
  let phased_bool := metadata.is_phased
  let (row, table') := get_or_create_record table
    (fun r => r.variantType == type_enum && r.size == size_enum &&
      r.origin == origin_enum && r.is_phased == phased_bool)
    (fun i =>
      { id := i, variantType := type_enum, size := size_enum,
        origin := origin_enum, is_phased := phased_bool })
    (fun r => r.id)
  (some row, table')

/-- `create_chemistry`: skipped when the free-text name is blank. -/
def create_chemistry (table : List ChemistryRow) (metadata : DbMeta) :
    Option ChemistryRow × List ChemistryRow :=
  if strTrim metadata.chemistry_name = "" then (none, table)
  else
    let tech_enum := mapTechnology (some metadata.technology)
    let (row, table') := get_or_create_record table
      (fun r => r.name == metadata.chemistry_name && r.sequencing_technology == tech_enum &&
        r.sequencing_platform == metadata.platform_name && r.version == metadata.chemistry_version)
      (fun i =>
        { id := i, name := metadata.chemistry_name, sequencing_technology := tech_enum,
          sequencing_platform := metadata.platform_name, version := metadata.chemistry_version })
      (fun r => r.id)
    (some row, table')

/-- `create_quality_control`: the full field set is the key; skipped when all
metric values are `None`. -/
def create_quality_control (table : List QualityControlRow) (metadata : DbMeta) :
    Option QualityControlRow × List QualityControlRow :=
  let mc := safe_float metadata.mean_coverage
  let rl := safe_float metadata.read_length
  let mrl := safe_float (some metadata.mean_read_length)
  let mis := safe_float metadata.mean_insert_size
  if mc == none && rl == none && mrl == none && mis == none then (none, table)
  else
    let (row, table') := get_or_create_record table
      (fun r => r.mean_coverage == mc && r.read_length == rl &&
        r.mean_read_length == mrl && r.mean_insert_size == mis)
      (fun i =>
        { id := i, mean_coverage := mc, read_length := rl,
          mean_read_length := mrl, mean_insert_size := mis })
      (fun r => r.id)
    (some row, table')

/-! ## `RegionType` and `from_string` (`models.py`) -/

inductive RegionType
  | ALL | EASY | DIFFICULT
  | GC_VERY_LOW | GC_15_20 | GC_20_25 | GC_25_30 | GC_30_55 | GC_55_60
  | GC_60_65 | GC_65_70 | GC_70_75 | GC_75_80 | GC_80_85 | GC_VERY_HIGH
  | GC_LT25_OR_GT65 | GC_LT30_OR_GT55
  | REFSEQ_CDS | NOT_IN_CDS
  | SEGDUP | NOT_IN_SEGDUPS
  | HOMOPOLYMER_4TO6 | HOMOPOLYMER_7TO11 | HOMOPOLYMER_GT12 | HOMOPOLYMER_GE21
  | ALL_TR_AND_HOMOPOLYMERS | NOT_IN_ALL_TR_AND_HOMOPOLYMERS
  | SATELLITES | NOT_IN_SATELLITES
  | LOW_MAPPABILITY | NOT_IN_LOW_MAPPABILITY
  | MHC | TS_BOUNDARY | TS_CONTAINED
deriving DecidableEq, Repr

/-- `RegionType.from_string`: falsy input is rejected, then the raw label is
normalized with `str(region_str).strip().lower()` and looked up in the fixed
synonym table. -/
def RegionType.from_string (region_str : Option String) : Option RegionType :=
  match region_str with
  | none => none
  | some s =>
    if s = "" then none else
    match strLower (strTrim s) with
    | "*" => some .ALL
    | "easy" => some .EASY
    | "difficult" => some .DIFFICULT
    | "gc_<15" => some .GC_VERY_LOW
    | "gc_15_20" => some .GC_15_20
    | "gc_20_25" => some .GC_20_25
    | "gc_25_30" => some .GC_25_30
    | "gc_30_55" => some .GC_30_55
    | "gc_55_60" => some .GC_55_60
    | "gc_60_65" => some .GC_60_65
    | "gc_65_70" => some .GC_65_70
    | "gc_70_75" => some .GC_70_75
    | "gc_75_80" => some .GC_75_80
    | "gc_80_85" => some .GC_80_85
    | "gc_>85" => some .GC_VERY_HIGH
    | "gc15" => some .GC_VERY_LOW
    | "gc15to20" => some .GC_15_20
    | "gc20to25" => some .GC_20_25
    | "gc25to30" => some .GC_25_30
    | "gc30to55" => some .GC_30_55
    | "gc55to60" => some .GC_55_60
    | "gc60to65" => some .GC_60_65
    | "gc65to70" => some .GC_65_70
    | "gc70to75" => some .GC_70_75
    | "gc75to80" => some .GC_75_80
    | "gc80to85" => some .GC_80_85
    | "gc85" => some .GC_VERY_HIGH
    | "gclt25orgt65" => some .GC_LT25_OR_GT65
    | "gclt30orgt55" => some .GC_LT30_OR_GT55
    | "refseq_cds" => some .REFSEQ_CDS
    | "not_in_cds" => some .NOT_IN_CDS
    | "not_in_refseq_cds" => some .NOT_IN_CDS
    | "segdup" => some .SEGDUP
    | "segdups" => some .SEGDUP
    | "not_in_segdups" => some .NOT_IN_SEGDUPS
    | "homopolymer_4to6" => some .HOMOPOLYMER_4TO6
    | "homopolymer_7to11" => some .HOMOPOLYMER_7TO11
    | "homopolymer_gt11" => some .HOMOPOLYMER_GT12
    | "homopolymer_gt12" => some .HOMOPOLYMER_GT12
    | "homopolymer_ge12" => some .HOMOPOLYMER_GT12
    | "homopolymer_ge21" => some .HOMOPOLYMER_GE21
    | "all_tr_and_homopolymers" => some .ALL_TR_AND_HOMOPOLYMERS
    | "not_in_all_tr_and_homopolymers" => some .NOT_IN_ALL_TR_AND_HOMOPOLYMERS
    | "satellites" => some .SATELLITES
    | "not_in_satellites" => some .NOT_IN_SATELLITES
    | "low_mappability" => some .LOW_MAPPABILITY
    | "not_in_low_mappability" => some .NOT_IN_LOW_MAPPABILITY
    | "mhc" => some .MHC
    | "ts_boundary" => some .TS_BOUNDARY
    | "ts_contained" => some .TS_CONTAINED
    | _ => none

/-! ## hap.py files and result rows

A hap.py CSV becomes a column-name list plus data rows.  The embedded row
keeps the four key columns (`Type`, `Subtype`, `Subset`, `Filter`) and the
three metric columns; the truth/query count columns flow through the same
`safe_int` coercion pattern into fields no claim refers to, and are omitted
from the embedding. -/

structure HappyRow where
  typeVal : String
  subtypeVal : String
  subsetVal : String
  filterVal : String
  metricRecall : Option String := none
  metricPrecision : Option String := none
  metricF1 : Option String := none
deriving DecidableEq, Repr

structure HappyFile where
  columns : List String
  rows : List HappyRow
deriving DecidableEq, Repr

structure BenchmarkResultRow where
  experiment_id : Nat
  variant_type : String
  subtype : String
  subset : RegionType
  filter_type : String
  metric_recall : Option String := none
  metric_precision : Option String := none
  metric_f1_score : Option String := none
deriving DecidableEq, Repr

structure OverallResultRow where
  experiment_id : Nat
  variant_type : String
  metric_recall : Option String := none
  metric_precision : Option String := none
  metric_f1_score : Option String := none
deriving DecidableEq, Repr

structure ExperimentRow where
  id : Nat
  name : String := ""
  description : String := ""
  created_at : String := ""
  owner_id : Option Int := none
  is_public : Bool := true
  created_by_username : Option String := none
  sequencing_technology_id : Option Nat := none
  variant_caller_id : Option Nat := none
  aligner_id : Option Nat := none
  truth_set_id : Option Nat := none
  benchmark_tool_id : Option Nat := none
  variant_id : Option Nat := none
  chemistry_id : Option Nat := none
  quality_control_metrics_id : Option Nat := none
deriving DecidableEq, Repr

structure DB where
  experiments : List ExperimentRow := []
  seqTechs : List SequencingTechnologyRow := []
  callers : List VariantCallerRow := []
  aligners : List AlignerRow := []
  truthSets : List TruthSetRow := []
  benchmarkTools : List BenchmarkToolRow := []
  variants : List VariantRow := []
  chemistries : List ChemistryRow := []
  qualityControls : List QualityControlRow := []
  benchmarkResults : List BenchmarkResultRow := []
  overallResults : List OverallResultRow := []
deriving DecidableEq, Repr

/-! ## File-system model -/

def lookupFile (files : List (String × HappyFile)) (name : String) : Option HappyFile :=
  (files.find? (fun kv => kv.1 == name)).map (fun kv => kv.2)

/-- `shutil.move` into the data folder: an existing file of the same name is
overwritten. -/
def putFile (files : List (String × HappyFile)) (name : String) (f : HappyFile) :
    List (String × HappyFile) :=
  files.filter (fun kv => kv.1 != name) ++ [(name, f)]

def removeFile (files : List (String × HappyFile)) (name : String) :
    List (String × HappyFile) :=
  files.filter (fun kv => kv.1 != name)

/-! ## `parse_happy_csv` (`happy_parser.py`) -/

structure ParseResult where
  success : Bool
  skipped : Bool := false
deriving DecidableEq, Repr

def happyRequiredColumns : List String :=
  ["Type", "Subtype", "Subset", "Filter", "METRIC.Recall", "METRIC.Precision", "METRIC.F1_Score"]

/-- `validate_happy_data`: required columns present and at least one row. -/
def validate_happy_data (f : HappyFile) : Bool :=
  happyRequiredColumns.all (fun c => f.columns.contains c) && !f.rows.isEmpty

/-- The retained rows: `df[(df['Subtype'] == '*') & (df['Filter'] == 'ALL')]`. -/
def happyFilteredRows (f : HappyFile) : List HappyRow :=
  f.rows.filter (fun r => r.subtypeVal == "*" && r.filterVal == "ALL")

/-- One `BenchmarkResult` insert per retained row with a recognized region.
The source's single loop appends to the two result tables independently, so
it splits into this comprehension and `overallRowsOf`. -/
def benchRowsOf (experiment_id : Nat) (rows : List HappyRow) : List BenchmarkResultRow :=
  rows.filterMap (fun row =>
    (RegionType.from_string (some row.subsetVal)).map (fun region =>
      { experiment_id := experiment_id
        variant_type := row.typeVal
        subtype := replaceCharStr '*' "ALL_SUBTYPES" row.subtypeVal
        subset := region
        filter_type := row.filterVal
        metric_recall := safe_float row.metricRecall
        metric_precision := safe_float row.metricPrecision
        metric_f1_score := safe_float row.metricF1 }))

/-- The additional `OverallResult` insert for retained rows whose region code
is the whole-genome code (`RegionType.ALL`). -/
def overallRowsOf (experiment_id : Nat) (rows : List HappyRow) : List OverallResultRow :=
  rows.filterMap (fun row =>
    match RegionType.from_string (some row.subsetVal) with
    | none => none
    | some region =>
      if region == RegionType.ALL then
        some { experiment_id := experiment_id
               variant_type := row.typeVal
               metric_recall := safe_float row.metricRecall
               metric_precision := safe_float row.metricPrecision
               metric_f1_score := safe_float row.metricF1 }
      else none)

/-- `parse_happy_csv(happy_file_name, experiment_id, session)`:
idempotency guard, file lookup, data validation, row filtering, then the
insert loop. -/
def parse_happy_csv (dataFiles : List (String × HappyFile)) (happy_file_name : String)
    (experiment_id : Nat) (db : DB) : DB × ParseResult :=
  if (db.benchmarkResults.find? (fun r => r.experiment_id == experiment_id)).isSome ||
     (db.overallResults.find? (fun r => r.experiment_id == experiment_id)).isSome then
    (db, { success := true, skipped := true })
  else
    match lookupFile dataFiles happy_file_name with
    | none => (db, { success := false })
    | some f =>
      if !validate_happy_data f then (db, { success := false })
      else
        let filtered_df := happyFilteredRows f
        if filtered_df.isEmpty then (db, { success := false })
        else
          ({ db with
              benchmarkResults := db.benchmarkResults ++ benchRowsOf experiment_id filtered_df
              overallResults := db.overallResults ++ overallRowsOf experiment_id filtered_df },
           { success := true })

/-! ## Raw form metadata (`upload_handler.py`)

A JSON/form dictionary: every field is optional (`none` models an absent
key).  `Meta.get` replays `metadata.get(field, "")` for the keys that the
validator iterates over. -/

structure Meta where
  exp_name : Option String := none
  description : Option String := none
  technology : Option String := none
  target : Option String := none
  platform_name : Option String := none
  platform_type : Option String := none
  platform_version : Option String := none
  chemistry_name : Option String := none
  chemistry_version : Option String := none
  caller_name : Option String := none
  caller_type : Option String := none
  caller_version : Option String := none
  caller_model : Option String := none
  aligner_name : Option String := none
  aligner_version : Option String := none
  truth_set_name : Option String := none
  truth_set_sample : Option String := none
  truth_set_version : Option String := none
  truth_set_reference : Option String := none
  variant_type : Option String := none
  variant_size : Option String := none
  variant_origin : Option String := none
  is_phased : Option String := none
  benchmark_tool_name : Option String := none
  benchmark_tool_version : Option String := none
  mean_coverage : Option String := none
  read_length : Option String := none
  mean_insert_size : Option String := none
  mean_read_length : Option String := none
  experiment_visibility : Option String := none
  owner_username : Option String := none
  owner_id : Option Int := none
deriving DecidableEq, Repr

def Meta.get (m : Meta) (key : String) : Option String :=
  if key = "exp_name" then m.exp_name
  else if key = "technology" then m.technology
  else if key = "platform_name" then m.platform_name
  else if key = "platform_type" then m.platform_type
  else if key = "caller_name" then m.caller_name
  else if key = "caller_version" then m.caller_version
  else if key = "caller_type" then m.caller_type
  else if key = "mean_coverage" then m.mean_coverage
  else if key = "truth_set_name" then m.truth_set_name
  else none

def REQUIRED_METADATA : List String :=
  ["exp_name", "technology", "platform_name", "platform_type",
   "caller_name", "caller_version", "caller_type", "mean_coverage", "truth_set_name"]

def VALID_TECHNOLOGIES : List String := ["ILLUMINA", "PACBIO", "ONT", "MGI", "10X"]

def VALID_CALLERS : List String :=
  ["DEEPVARIANT", "CLAIR3", "DRAGEN", "GATK3", "GATK4",
   "LONGRANGER", "MEGABOLT", "NANOCALLER", "PARABRICK", "PEPPER"]

/-- `validate_metadata`: every required field present and non-blank, then the
technology and caller values (uppercased) must belong to the valid enum
lists.  No other category field is enum-checked here. -/
def validate_metadata (metadata : Meta) : Bool × String :=
  match REQUIRED_METADATA.find? (fun field => strTrim ((metadata.get field).getD "") == "") with
  | some field => (false, "Required field " ++ field ++ " is missing")
  | none =>
    if !VALID_TECHNOLOGIES.contains (strUpper (metadata.technology.getD "")) then
      (false, "Invalid technology: " ++ (metadata.technology.getD ""))
    else if !VALID_CALLERS.contains (strUpper (metadata.caller_name.getD "")) then
      (false, "Invalid caller: " ++ (metadata.caller_name.getD ""))
    else (true, "Metadata is valid")

/-- `safe_upper` from `prepare_metadata_dict`. -/
def safe_upper (v : Option String) : String :=
  match v with
  | none => ""
  | some s => if strTrim s = "" then "" else strUpper (strTrim s)

/-- `prepare_metadata_dict`'s local `safe_float`: no comma stripping here. -/
def prep_safe_float (v : Option String) : Option String :=
  match v with
  | none => none
  | some s =>
    if strTrim s = "" then none
    else if isSimpleFloat (strTrim s) then some (strTrim s) else none

/-- The wall clock, abstracted: `datetime.now().strftime('%Y-%m-%d')`. -/
def todayStr : String := "2026-01-01"

/-- `prepare_metadata_dict`: convert the raw form dict into the
database-ready dict.  Direct indexing (`metadata['exp_name']`) only happens
after `validate_metadata` guaranteed presence, so `getD ""` is faithful on
every reachable input. -/
def prepare_metadata_dict (metadata : Meta) : DbMeta :=
  let is_public := metadata.experiment_visibility.getD "private" == "public"
  { exp_name := metadata.exp_name.getD ""
    description := metadata.description.getD ""
    technology := safe_upper metadata.technology
    target := safe_upper (some (metadata.target.getD "wgs"))
    platform_name := metadata.platform_name.getD ""
    platform_type := safe_upper (some (metadata.platform_type.getD ""))
    platform_version := metadata.platform_version.getD ""
    chemistry_name := metadata.chemistry_name.getD ""
    chemistry_version := metadata.chemistry_version.getD ""
    caller_name := safe_upper metadata.caller_name
    caller_type := safe_upper (some (metadata.caller_type.getD ""))
    caller_version := metadata.caller_version.getD ""
    caller_model := metadata.caller_model.getD ""
    aligner_name := metadata.aligner_name.getD ""
    aligner_version := metadata.aligner_version.getD ""
    truth_set_name := safe_upper (some (metadata.truth_set_name.getD ""))
    truth_set_sample := safe_upper (some (metadata.truth_set_sample.getD "hg002"))
    truth_set_version := metadata.truth_set_version.getD ""
    truth_set_reference := safe_upper (some (metadata.truth_set_reference.getD ""))
    variant_type := safe_upper (some (metadata.variant_type.getD "snp+indel"))
    variant_size := safe_upper (some (metadata.variant_size.getD ""))
    variant_origin := safe_upper (some (metadata.variant_origin.getD ""))
    is_phased := safe_bool (some (metadata.is_phased.getD "false"))
    benchmark_tool_name := safe_upper (some (metadata.benchmark_tool_name.getD "hap.py"))
    benchmark_tool_version := metadata.benchmark_tool_version.getD ""
    mean_coverage := prep_safe_float metadata.mean_coverage
    read_length := prep_safe_float metadata.read_length
    mean_insert_size := prep_safe_float metadata.mean_insert_size
    mean_read_length := metadata.mean_read_length.getD ""
    created_at := todayStr
    is_public := is_public
    owner_username := metadata.owner_username
    owner_id := metadata.owner_id }

/-! ## ID allocation (`get_next_experiment_id`) -/

def PUBLIC_ID_MAX : Nat := 999

def PRIVATE_ID_START : Nat := 1000

/-- `max(ids in 1..999) or 0`. -/
def maxPublicId (db : DB) : Nat :=
  ((db.experiments.filter (fun e => decide (1 ≤ e.id ∧ e.id ≤ PUBLIC_ID_MAX))).map
    (fun e => e.id)).foldl Nat.max 0

/-- `max(ids >= 1000) or 999` (the scalar's `or` default is
`PRIVATE_ID_START - 1`). -/
def maxPrivateId (db : DB) : Nat :=
  ((db.experiments.filter (fun e => decide (PRIVATE_ID_START ≤ e.id))).map
    (fun e => e.id)).foldl Nat.max (PRIVATE_ID_START - 1)

def pubExhaustedMsg : String := "Public experiment ID limit (999) reached"

/-- `get_next_experiment_id(is_public)`: public ids live in 1..999 with a
raised `ValueError` when the range is exhausted; private ids start at 1000. -/
def get_next_experiment_id (is_public : Bool) (db : DB) : Except String Nat :=
  if is_public then
    let next_id := maxPublicId db + 1
    if next_id > PUBLIC_ID_MAX then Except.error pubExhaustedMsg
    else Except.ok next_id
  else
    Except.ok (Nat.max (maxPrivateId db) (PRIVATE_ID_START - 1) + 1)

/-! ## `generate_filename` -/

def padNum (width : Nat) (n : Nat) : String :=
  let s := toString n
  if width ≤ s.toList.length then s
  else String.mk (List.replicate (width - s.toList.length) '0') ++ s

/-- `generate_filename`: `{id padded}_{sample}_{technology}_{platform}_{caller}_{truthset}.csv`
with 3-digit padding for public ids and 4-digit padding for private ids; the
components are stripped, lowercased and space-free. -/
def generate_filename (metadata : DbMeta) (experiment_id : Nat) (is_public : Bool) : String :=
  let sample := strTrim ((splitOnChar '_' metadata.exp_name).headD "")
  let technology := removeAllChar ' ' (strLower (strTrim metadata.technology))
  let platform := removeAllChar ' ' (strLower (strTrim metadata.platform_name))
  let caller := removeAllChar ' ' (strLower (strTrim metadata.caller_name))
  let truthset := removeAllChar ' ' (strLower (strTrim metadata.truth_set_name))
  (if is_public then padNum 3 experiment_id else padNum 4 experiment_id) ++
    "_" ++ sample ++ "_" ++ technology ++ "_" ++ platform ++ "_" ++ caller ++
    "_" ++ truthset ++ ".csv"

/-! ## `create_experiment_direct` (`direct_db_population.py`) -/

structure CreateResult where
  success : Bool
  experiment_id : Option Nat := none
deriving DecidableEq, Repr

/-- The non-collision body of `create_experiment_direct`: resolve the eight
dimensions, insert the experiment row, and (when a filename was given) run
the result parser — whose failure is only logged and does not fail the
creation. -/
def assemble_experiment_row (db : DB) (metadata : DbMeta) (experiment_id : Nat) :
    ExperimentRow :=
  { id := experiment_id
    name := metadata.exp_name
    description := metadata.description
    created_at := metadata.created_at
    owner_id := metadata.owner_id
    is_public := metadata.is_public
    created_by_username := metadata.owner_username
    sequencing_technology_id := (create_sequencing_tech db.seqTechs metadata).1.map (fun r => r.id)
    variant_caller_id := (create_variant_caller db.callers metadata).1.map (fun r => r.id)
    aligner_id := (create_aligner db.aligners metadata).1.map (fun r => r.id)
    truth_set_id := (create_truth_set db.truthSets metadata).1.map (fun r => r.id)
    benchmark_tool_id := (create_benchmark_tool db.benchmarkTools metadata).1.map (fun r => r.id)
    variant_id := (create_variant db.variants metadata).1.map (fun r => r.id)
    chemistry_id := (create_chemistry db.chemistries metadata).1.map (fun r => r.id)
    quality_control_metrics_id := (create_quality_control db.qualityControls metadata).1.map (fun r => r.id) }

/-- The database state after dimension resolution and the experiment-row
insert, before result parsing. -/
def assemble_db (db : DB) (metadata : DbMeta) (experiment_id : Nat) : DB :=
  { db with
      experiments := db.experiments ++ [assemble_experiment_row db metadata experiment_id]
      seqTechs := (create_sequencing_tech db.seqTechs metadata).2
      callers := (create_variant_caller db.callers metadata).2
      aligners := (create_aligner db.aligners metadata).2
      truthSets := (create_truth_set db.truthSets metadata).2
      benchmarkTools := (create_benchmark_tool db.benchmarkTools metadata).2
      variants := (create_variant db.variants metadata).2
      chemistries := (create_chemistry db.chemistries metadata).2
      qualityControls := (create_quality_control db.qualityControls metadata).2 }

def create_experiment_core (db : DB) (dataFiles : List (String × HappyFile))
    (metadata : DbMeta) (experiment_id : Nat) (filename : Option String) : DB :=
  match filename with
  | none => assemble_db db metadata experiment_id
  | some fn =>
    (parse_happy_csv dataFiles fn experiment_id (assemble_db db metadata experiment_id)).1

/-- `create_experiment_direct(metadata, experiment_id, filename)`: reject an
occupied identifier before any mutation; otherwise run the assembly body
(`create_experiment_core`). -/
def create_experiment_direct (db : DB) (dataFiles : List (String × HappyFile))
    (metadata : DbMeta) (experiment_id? : Option Nat) (filename : Option String) :
    DB × CreateResult :=
  let experiment_id := experiment_id?.getD (freshId (db.experiments.map (fun e => e.id)))
  if (db.experiments.find? (fun e => e.id == experiment_id)).isSome then
    (db, { success := false })
  else
    (create_experiment_core db dataFiles metadata experiment_id filename,
     { success := true, experiment_id := some experiment_id })

/-! ## CSV backup mirror (`csv_backup.py`)

The mirror keeps one row per experiment identifier; the embedded row carries
the identifier and the stored file name (the other 31 flattened metadata and
audit columns are written but never read back by the pipeline under
verification). -/

structure BackupRow where
  id : Nat
  file_name : String := ""
deriving DecidableEq, Repr

/-- `add_to_backup(experiment_id, metadata, filename)`: drop any existing row
with the same identifier, then append the new flattened row.  NOTE: this
function has no caller anywhere in the upload path of the source tree. -/
def add_to_backup (backupRows : List BackupRow) (experiment_id : Nat)
    (filename : Option String) : List BackupRow :=
  (backupRows.filter (fun r => r.id != experiment_id)) ++
    [{ id := experiment_id, file_name := filename.getD "" }]

/-- `get_filename_from_backup`. -/
def get_filename_from_backup (backupRows : List BackupRow) (experiment_id : Nat) :
    Option String :=
  match backupRows.find? (fun r => r.id == experiment_id) with
  | none => none
  | some row => if strTrim row.file_name = "" then none else some (strTrim row.file_name)

/-- `remove_from_backup`: archive the matching rows into the deleted file,
then drop them from the main backup. -/
def remove_from_backup (backupRows deletedRows : List BackupRow) (experiment_id : Nat) :
    List BackupRow × List BackupRow :=
  match backupRows.find? (fun r => r.id == experiment_id) with
  | none => (backupRows, deletedRows)
  | some _ =>
    let archived := backupRows.filter (fun r => r.id == experiment_id)
    (backupRows.filter (fun r => r.id != experiment_id), deletedRows ++ archived)

/-! ## The world: database plus file system plus mirror -/

structure World where
  db : DB := {}
  dataFiles : List (String × HappyFile) := []
  backupRows : List BackupRow := []
  deletedBackupRows : List BackupRow := []
  archivedFiles : List (String × HappyFile) := []
deriving DecidableEq, Repr

/-! ## Upload orchestration (`process_upload_direct`, `upload_experiment_v2`) -/

structure UploadResult where
  success : Bool
  experiment_id : Option Nat := none
  is_public : Option Bool := none
deriving DecidableEq, Repr

def failUpload : UploadResult := { success := false }

/-- The upload handler's own `validate_happy_file` (its `REQUIRED_COLS` list
omits `Filter`): required columns present, at least one row, and at least one
row of type SNP or INDEL. -/
def uploadRequiredCols : List String :=
  ["Type", "Subtype", "Subset", "METRIC.Recall", "METRIC.Precision", "METRIC.F1_Score"]

def validate_happy_file_upload (file : Option HappyFile) : Bool :=
  match file with
  | none => false
  | some f =>
    uploadRequiredCols.all (fun c => f.columns.contains c) &&
    !f.rows.isEmpty &&
    f.rows.any (fun r => r.typeVal == "SNP" || r.typeVal == "INDEL")

/-- `process_upload_direct(temp_file_path, metadata_json_string)`: parse the
JSON (`none` models undecodable JSON), validate file then metadata, prepare
the dict, allocate the identifier, move the file into the data folder, create
the experiment, and on database failure delete the moved file.  The CSV
backup mirror is not touched anywhere in this flow (faithful to the source:
`add_to_backup` has no caller here). -/
def process_upload_direct (w : World) (temp_file : Option HappyFile)
    (metadata : Option Meta) : World × UploadResult :=
  match metadata with
  | none => (w, failUpload)
  | some md =>
    match temp_file with
    | none => (w, failUpload)
    | some f =>
      if !validate_happy_file_upload (some f) then (w, failUpload)
      else if !(validate_metadata md).1 then (w, failUpload)
      else
        let db_metadata := prepare_metadata_dict md
        let is_public := db_metadata.is_public
        match get_next_experiment_id is_public w.db with
        | Except.error _ => (w, failUpload)
        | Except.ok experiment_id =>
          let filename := generate_filename db_metadata experiment_id is_public
          let dataFiles1 := putFile w.dataFiles filename f
          let db_result :=
            create_experiment_direct w.db dataFiles1 db_metadata (some experiment_id) (some filename)
          if db_result.2.success then
            ({ w with db := db_result.1, dataFiles := dataFiles1 },
             { success := true, experiment_id := some experiment_id, is_public := some is_public })
          else
            ({ w with db := db_result.1, dataFiles := removeFile dataFiles1 filename }, failUpload)

/-- `upload_experiment_v2`: non-admins requesting a public upload are not
rejected; the visibility field is silently rewritten to `private` before the
metadata reaches `process_upload_direct`. -/
def upload_experiment_v2 (w : World) (file : Option HappyFile) (metadata : Option Meta)
    (_username : Option String) (is_admin : Bool) : World × UploadResult :=
  match metadata with
  | none => process_upload_direct w file none
  | some md =>
    let is_public := md.experiment_visibility.getD "private" == "public"
    let md' :=
      if is_public && !is_admin then { md with experiment_visibility := some "private" }
      else md
    process_upload_direct w file (some md')

/-! ## Deletion (`delete_handler.py`) -/

/-- `can_delete_experiment(experiment, user_id, is_admin)`: admins always;
legacy rows with no owner require admin; otherwise the caller must be the
recorded owner. -/
def can_delete_experiment (experiment : ExperimentRow) (user_id : Option Int)
    (is_admin : Bool) : Bool × String :=
  if is_admin then (true, "Admin access")
  else
    match experiment.owner_id with
    | none => (false, "Legacy experiments require admin to delete")
    | some owner =>
      match user_id with
      | none => (false, "Authentication required")
      | some uid =>
        if owner == uid then (true, "Owner access")
        else (false, "Not authorized to delete this experiment")

structure DeleteCounts where
  benchmark_results : Nat
  overall_results : Nat
  experiments : Nat
deriving DecidableEq, Repr

/-- `_delete_from_database`: issued children before parent inside one session
(BenchmarkResult rows, then OverallResult rows, then the Experiment row),
committed together by the caller. -/
def delete_from_database (experiment_id : Nat) (db : DB) : DB × DeleteCounts :=
  let benchKeep := db.benchmarkResults.filter (fun r => r.experiment_id != experiment_id)
  let overallKeep := db.overallResults.filter (fun r => r.experiment_id != experiment_id)
  let expKeep := db.experiments.filter (fun e => e.id != experiment_id)
  ({ db with
      benchmarkResults := benchKeep, overallResults := overallKeep,
      experiments := expKeep },
   { benchmark_results := db.benchmarkResults.length - benchKeep.length
     overall_results := db.overallResults.length - overallKeep.length
     experiments := db.experiments.length - expKeep.length })

/-- `_find_happy_file`: try the hint filename from the backup first, then
fall back to scanning the data folder for `{id:03d}_`-prefixed CSV files
(skipping the `000_`-prefixed mirror files). -/
def find_happy_file (dataFiles : List (String × HappyFile)) (experiment_id : Nat)
    (hint_filename : Option String) : Option String :=
  let fallback :=
    (dataFiles.find? (fun kv =>
      strEndsWith kv.1 ".csv" && !strStartsWith kv.1 "000_" &&
      strStartsWith kv.1 (padNum 3 experiment_id ++ "_"))).map (fun kv => kv.1)
  match hint_filename with
  | some h => if (lookupFile dataFiles h).isSome then some h else fallback
  | none => fallback

/-- `_archive_happy_file`: move the located file into the `deleted/` folder;
a missing file is not an error. -/
def archive_happy_file (dataFiles archivedFiles : List (String × HappyFile))
    (experiment_id : Nat) (hint_filename : Option String) :
    (List (String × HappyFile) × List (String × HappyFile)) × Option String :=
  match find_happy_file dataFiles experiment_id hint_filename with
  | none => ((dataFiles, archivedFiles), none)
  | some fname =>
    match lookupFile dataFiles fname with
    | none => ((dataFiles, archivedFiles), none)
    | some f => ((removeFile dataFiles fname, putFile archivedFiles fname f), some fname)

structure DeleteResult where
  success : Bool
  unauthorized : Bool := false
deriving DecidableEq, Repr

/-- `delete_experiment(experiment_id, user_id, username, is_admin)`: verify
existence, check authorization (returning a structured unauthorized failure
with no mutation), delete from the database and commit, then best-effort
remove from the CSV backup (archiving the row) and archive the hap.py
file. -/
def delete_experiment (w : World) (experiment_id : Nat) (user_id : Option Int)
    (_username : Option String) (is_admin : Bool) : World × DeleteResult :=
  match w.db.experiments.find? (fun e => e.id == experiment_id) with
  | none => (w, { success := false })
  | some experiment =>
    if !(can_delete_experiment experiment user_id is_admin).1 then
      (w, { success := false, unauthorized := true })
    else
      let dbRes := delete_from_database experiment_id w.db
      let hint_filename := get_filename_from_backup w.backupRows experiment_id
      let backupRes := remove_from_backup w.backupRows w.deletedBackupRows experiment_id
      let archiveRes :=
        archive_happy_file w.dataFiles w.archivedFiles experiment_id hint_filename
      ({ db := dbRes.1, dataFiles := archiveRes.1.1, backupRows := backupRes.1,
         deletedBackupRows := backupRes.2, archivedFiles := archiveRes.1.2 },
       { success := true })

/-! ## Concrete fixtures used by witnesses and counterexamples -/

/-- A form submission that passes `validate_metadata` (no visibility field,
so the upload is private by default). -/
def sampleMeta : Meta :=
  { exp_name := some "Sample1_run", technology := some "illumina",
    platform_name := some "NovaSeq", platform_type := some "srs",
    caller_name := some "deepvariant", caller_version := some "1.5",
    caller_type := some "ml", mean_coverage := some "30",
    truth_set_name := some "giab" }

/-- A hap.py file with one SNP and one INDEL row at region `*`, already
collapsed to `Subtype='*'`, `Filter='ALL'`. -/
def sampleFile : HappyFile :=
  { columns := ["Type", "Subtype", "Subset", "Filter",
      "METRIC.Recall", "METRIC.Precision", "METRIC.F1_Score"],
    rows := [
      { typeVal := "SNP", subtypeVal := "*", subsetVal := "*", filterVal := "ALL",
        metricRecall := some "0.99", metricPrecision := some "0.98", metricF1 := some "0.985" },
      { typeVal := "INDEL", subtypeVal := "*", subsetVal := "*", filterVal := "ALL",
        metricRecall := some "0.95", metricPrecision := some "0.94", metricF1 := some "0.945" }] }

/-- Two submissions whose SequencingTechnology natural keys agree after
case/whitespace normalization but differ verbatim in the platform name. -/
def c1MetaA : Meta := sampleMeta

def c1MetaB : Meta := { sampleMeta with platform_name := some "novaseq" }

/-- The claim's normalization of a natural-key component: trim, remove
spaces, lowercase. -/
def claimNormKey (s : String) : String := strLower (removeAllChar ' ' (strTrim s))

/-- A submission whose truth-set name is not one of the recognized codes. -/
def c9Meta : Meta := { sampleMeta with truth_set_name := some "FOO" }

/-- A non-admin submission requesting public visibility. -/
def c10Meta : Meta := { sampleMeta with experiment_visibility := some "public" }

def c3Row : BenchmarkResultRow :=
  { experiment_id := 9, variant_type := "SNP",
    subtype := "ALL_SUBTYPES", subset := RegionType.ALL, filter_type := "ALL" }

def c3Db : DB := { benchmarkResults := [c3Row] }

def c4Db : DB :=
  { experiments := [{ id := 5, owner_id := some 7 }],
    benchmarkResults := [{ c3Row with experiment_id := 5 }],
    overallResults := [{ experiment_id := 5, variant_type := "SNP" }] }

def c4World : World := { db := c4Db }

def c6DataFiles : List (String × HappyFile) := [("009_sample.csv", sampleFile)]

def c8OccupiedDb : DB := { experiments := [{ id := 42 }] }

def c8FullPublicDb : DB := { experiments := [{ id := 999 }] }

/-! # Theorems -/

/-! ## Helper lemmas -/

theorem lookupFile_filter_none {l : List (String × HappyFile)} {p : String × HappyFile → Bool}
    {k : String} (h : lookupFile l k = none) : lookupFile (l.filter p) k = none := by
  simp only [lookupFile, Option.map_eq_none'] at h ⊢
  rw [List.find?_eq_none] at h ⊢
  intro x hx
  exact h x (List.mem_of_mem_filter hx)

theorem lookupFile_removeFile_putFile {l : List (String × HappyFile)} {fn k : String}
    {f : HappyFile} (h : lookupFile l k = none) :
    lookupFile (removeFile (putFile l fn f) fn) k = none := by
  simp only [removeFile, putFile, List.filter_append]
  simp only [lookupFile, Option.map_eq_none'] at h ⊢
  rw [List.find?_eq_none] at h ⊢
  intro x hx
  rcases List.mem_append.mp hx with hx1 | hx2
  · exact h x (List.mem_of_mem_filter (List.mem_of_mem_filter hx1))
  · rcases List.mem_filter.mp hx2 with ⟨hx2m, hx2p⟩
    simp only [List.mem_singleton] at hx2m
    subst hx2m
    simp at hx2p

theorem create_experiment_failure_db_eq {db : DB} {dfs : List (String × HappyFile)}
    {md : DbMeta} {id? : Option Nat} {fn : Option String} {db' : DB} {r : CreateResult}
    (heq : create_experiment_direct db dfs md id? fn = (db', r))
    (hfail : r.success = false) : db' = db := by
  unfold create_experiment_direct at heq
  simp only [] at heq
  split at heq
  all_goals injection heq with h1 h2
  all_goals first
    | exact h1.symm
    | (rw [← h2] at hfail; simp at hfail)

theorem parse_happy_csv_experiments (dfs : List (String × HappyFile)) (fn : String)
    (eid : Nat) (db : DB) : (parse_happy_csv dfs fn eid db).1.experiments = db.experiments := by
  simp only [parse_happy_csv]
  repeat' first
    | rfl
    | split

theorem create_experiment_core_experiments (db : DB) (dfs : List (String × HappyFile))
    (md : DbMeta) (eid : Nat) (fn : Option String) :
    (create_experiment_core db dfs md eid fn).experiments =
      db.experiments ++ [assemble_experiment_row db md eid] := by
  cases fn with
  | none => rfl
  | some s =>
    show (parse_happy_csv dfs s eid _).1.experiments = _
    rw [parse_happy_csv_experiments]
    rfl

theorem create_experiment_success_spec {db : DB} {dfs : List (String × HappyFile)}
    {md : DbMeta} {n : Nat} {fn : Option String} {db' : DB} {r : CreateResult}
    (heq : create_experiment_direct db dfs md (some n) fn = (db', r))
    (hs : r.success = true) :
    r.experiment_id = some n ∧
      ∃ e ∈ db'.experiments, e.id = n ∧ e.is_public = md.is_public := by
  unfold create_experiment_direct at heq
  simp only [Option.getD_some] at heq
  split at heq
  · injection heq with h1 h2
    rw [← h2] at hs
    simp at hs
  · injection heq with h1 h2
    refine ⟨h2 ▸ rfl, assemble_experiment_row db md n, ?_, rfl, rfl⟩
    rw [← h1, create_experiment_core_experiments]
    exact List.mem_append_right _ (List.mem_singleton.mpr rfl)

theorem get_next_private_ge {db : DB} {n : Nat}
    (h : get_next_experiment_id false db = Except.ok n) : 1000 ≤ n := by
  unfold get_next_experiment_id PRIVATE_ID_START at h
  simp only [Bool.false_eq_true, if_false, Except.ok.injEq] at h
  have hle : (999 : Nat) ≤ Nat.max (maxPrivateId db) (1000 - 1) := Nat.le_max_right _ _
  omega


theorem get_next_public_range {db : DB} {n : Nat}
    (h : get_next_experiment_id true db = Except.ok n) : 1 ≤ n ∧ n ≤ 999 := by
  unfold get_next_experiment_id PUBLIC_ID_MAX at h
  simp only [if_true] at h
  split at h
  · exact absurd h (by simp)
  · rename_i hle
    rw [Except.ok.injEq] at h
    omega

theorem get_next_public_exhausted {db : DB} (h : 999 ≤ maxPublicId db) :
    get_next_experiment_id true db = Except.error pubExhaustedMsg := by
  simp only [get_next_experiment_id, PUBLIC_ID_MAX, if_true]
  rw [if_pos (show maxPublicId db + 1 > 999 by omega)]

/-! ## Claim theorems -/

/-- C1 (the claim is violated by the code): two ingested metadata records
whose SequencingTechnology natural-key fields are equal after
case/whitespace normalization — same technology code, target and platform
type, platform names `"NovaSeq"` vs `"novaseq"` — produce TWO rows in the
table, both carrying the same normalized natural key, because
`get_or_create_record`'s `filter_by` compares the free-text `platform_name`
verbatim.  The claim (and §4.2/§8 of the spec) requires the second record to
resolve to the first row. -/
theorem c1_dimension_dedup_violated :
    (claimNormKey ((prepare_metadata_dict c1MetaA).platform_name) =
       claimNormKey ((prepare_metadata_dict c1MetaB).platform_name) ∧
     (prepare_metadata_dict c1MetaA).technology =
       (prepare_metadata_dict c1MetaB).technology ∧
     (prepare_metadata_dict c1MetaA).target = (prepare_metadata_dict c1MetaB).target ∧
     (prepare_metadata_dict c1MetaA).platform_type =
       (prepare_metadata_dict c1MetaB).platform_type) ∧
    ((create_sequencing_tech
        (create_sequencing_tech [] (prepare_metadata_dict c1MetaA)).2
        (prepare_metadata_dict c1MetaB)).2).length = 2 ∧
    (∀ r1 ∈ (create_sequencing_tech
        (create_sequencing_tech [] (prepare_metadata_dict c1MetaA)).2
        (prepare_metadata_dict c1MetaB)).2,
     ∀ r2 ∈ (create_sequencing_tech
        (create_sequencing_tech [] (prepare_metadata_dict c1MetaA)).2
        (prepare_metadata_dict c1MetaB)).2,
      r1.technology = r2.technology ∧ r1.target = r2.target ∧
      r1.platform_type = r2.platform_type ∧
      claimNormKey r1.platform_name = claimNormKey r2.platform_name) := by
  refine ⟨⟨?_, ?_, ?_, ?_⟩, ?_, ?_⟩ <;> decide

/-- C3: when an experiment already has at least one BenchmarkResult or
OverallResult row, `parse_happy_csv` is a no-op that reports a skipped
success: the database is returned unchanged and no error is raised. -/
theorem c3_parse_happy_csv_idempotent
    (dataFiles : List (String × HappyFile)) (fn : String) (eid : Nat) (db : DB)
    (h : (∃ r ∈ db.benchmarkResults, r.experiment_id = eid) ∨
         (∃ r ∈ db.overallResults, r.experiment_id = eid)) :
    parse_happy_csv dataFiles fn eid db = (db, { success := true, skipped := true }) := by
  unfold parse_happy_csv
  rw [if_pos]
  rcases h with ⟨r, hr, he⟩ | ⟨r, hr, he⟩
  · apply Bool.or_eq_true_iff.mpr
    exact Or.inl (List.find?_isSome.mpr ⟨r, hr, by simp [he]⟩)
  · apply Bool.or_eq_true_iff.mpr
    exact Or.inr (List.find?_isSome.mpr ⟨r, hr, by simp [he]⟩)

/-- Witness for C3 at a concrete database that already holds one
BenchmarkResult row for experiment 9. -/
theorem c3_witness :
    parse_happy_csv [] "anything.csv" 9 c3Db =
      (c3Db, { success := true, skipped := true }) :=
  c3_parse_happy_csv_idempotent [] "anything.csv" 9 c3Db
    (Or.inl ⟨c3Row, by decide, by decide⟩)

/-- C7 (the claim is violated by the code): a fully successful
`process_upload_direct` run — the experiment row is live in the database —
leaves the CSV backup mirror untouched: no backup row exists for the new
experiment, because `add_to_backup` is never called from the upload path.
The mirror therefore does not satisfy "a row for identifier N exactly when
Experiment N is live". -/
theorem c7_upload_leaves_backup_unsynchronized :
    (process_upload_direct {} (some sampleFile) (some sampleMeta)).2.success = true ∧
    (process_upload_direct {} (some sampleFile) (some sampleMeta)).2.experiment_id = some 1000 ∧
    (∃ e ∈ (process_upload_direct {} (some sampleFile) (some sampleMeta)).1.db.experiments,
      e.id = 1000) ∧
    (process_upload_direct {} (some sampleFile) (some sampleMeta)).1.backupRows = [] := by
  refine ⟨?_, ?_, ?_, ?_⟩ <;> decide

/-- C2: whenever `process_upload_direct` reports failure — in particular when
`create_experiment_direct` fails after the hap.py file was moved into the
data folder, in which case the handler deletes the moved file — no file that
was absent before the upload is present afterwards (no orphaned result file
for an experiment that was never created), and no experiment row was
added. -/
theorem c2_upload_failure_leaves_no_orphan_file :
    (∀ (w : World) (f : HappyFile) (md : Meta) (k : String),
      (process_upload_direct w (some f) (some md)).2.success = false →
      lookupFile w.dataFiles k = none →
      lookupFile (process_upload_direct w (some f) (some md)).1.dataFiles k = none) ∧
    (∀ (w : World) (f : HappyFile) (md : Meta),
      (process_upload_direct w (some f) (some md)).2.success = false →
      (process_upload_direct w (some f) (some md)).1.db.experiments = w.db.experiments) := by
  constructor
  · intro w f md k h hk
    revert h
    simp only [process_upload_direct]
    split
    · intro _; exact hk
    · split
      · intro _; exact hk
      · split
        · intro _; exact hk
        · split
          · intro h; simp at h
          · intro _; exact lookupFile_removeFile_putFile hk
  · intro w f md h
    revert h
    simp only [process_upload_direct]
    split
    · intro _; rfl
    · split
      · intro _; rfl
      · split
        · intro _; rfl
        · split
          · intro h; simp at h
          · intro hfail
            rename_i hns
            exact congrArg DB.experiments
              (create_experiment_failure_db_eq Prod.mk.eta.symm
                (Bool.eq_false_iff.mpr hns))

/-- Witness for C2: an upload whose metadata is empty fails, leaves the file
system without the probed file and the experiment table unchanged. -/
theorem c2_witness :
    lookupFile (process_upload_direct {} (some sampleFile) (some {})).1.dataFiles
      "probe.csv" = none ∧
    (process_upload_direct {} (some sampleFile) (some {})).1.db.experiments = [] :=
  ⟨c2_upload_failure_leaves_no_orphan_file.1 {} sampleFile {} "probe.csv"
      (by decide) (by decide),
   c2_upload_failure_leaves_no_orphan_file.2 {} sampleFile {} (by decide)⟩

/-- C4: whenever `delete_experiment` reports success, no BenchmarkResult row,
no OverallResult row and no Experiment row with the deleted identifier
remains (the deletions are issued children first — BenchmarkResult rows,
then OverallResult rows, then the Experiment row, see
`delete_from_database` — inside the session committed by the handler). -/
theorem c4_delete_cascade_complete
    (w : World) (eid : Nat) (uid : Option Int) (uname : Option String) (adm : Bool)
    (hs : (delete_experiment w eid uid uname adm).2.success = true) :
    (∀ r ∈ (delete_experiment w eid uid uname adm).1.db.benchmarkResults,
      r.experiment_id ≠ eid) ∧
    (∀ r ∈ (delete_experiment w eid uid uname adm).1.db.overallResults,
      r.experiment_id ≠ eid) ∧
    (∀ e ∈ (delete_experiment w eid uid uname adm).1.db.experiments, e.id ≠ eid) := by
  revert hs
  simp only [delete_experiment]
  split
  · intro hs; simp at hs
  · split
    · intro hs; simp at hs
    · intro _
      refine ⟨?_, ?_, ?_⟩
      · intro r hr
        have hmem : r ∈ w.db.benchmarkResults.filter
            (fun x => x.experiment_id != eid) := hr
        simpa using (List.mem_filter.mp hmem).2
      · intro r hr
        have hmem : r ∈ w.db.overallResults.filter
            (fun x => x.experiment_id != eid) := hr
        simpa using (List.mem_filter.mp hmem).2
      · intro e he
        have hmem : e ∈ w.db.experiments.filter (fun x => x.id != eid) := he
        simpa using (List.mem_filter.mp hmem).2

/-- Witness for C4: an admin deletes experiment 5, which has one
BenchmarkResult and one OverallResult row; afterwards nothing with
`experiment_id = 5` remains. -/
theorem c4_witness :
    (∀ r ∈ (delete_experiment c4World 5 none none true).1.db.benchmarkResults,
      r.experiment_id ≠ 5) ∧
    (∀ r ∈ (delete_experiment c4World 5 none none true).1.db.overallResults,
      r.experiment_id ≠ 5) ∧
    (∀ e ∈ (delete_experiment c4World 5 none none true).1.db.experiments, e.id ≠ 5) :=
  c4_delete_cascade_complete c4World 5 none none true (by decide)

/-- C5: a delete request by a caller who is neither an admin nor the recorded
owner of an existing experiment (including every experiment whose owner
reference is null) returns a structured unauthorized failure and the world —
database, files and mirror — is completely unchanged. -/
theorem c5_unauthorized_delete_no_mutation
    (w : World) (eid : Nat) (uid : Option Int) (uname : Option String) (e : ExperimentRow)
    (hfind : w.db.experiments.find? (fun x => x.id == eid) = some e)
    (howner : ¬ ∃ o : Int, e.owner_id = some o ∧ uid = some o) :
    delete_experiment w eid uid uname false = (w, { success := false, unauthorized := true }) := by
  have hcd : (can_delete_experiment e uid false).1 = false := by
    unfold can_delete_experiment
    simp only [Bool.false_eq_true, if_false]
    cases ho : e.owner_id with
    | none => rfl
    | some o =>
      cases hu : uid with
      | none => rfl
      | some u =>
        have hne : (o == u) = false := by
          apply Bool.eq_false_iff.mpr
          intro hbe
          exact howner ⟨o, ho, by rw [hu, beq_iff_eq.mp hbe]⟩
        simp [hne]
  simp only [delete_experiment, hfind]
  rw [if_pos (by rw [hcd]; rfl)]

/-- Witness for C5: user 8 (not an admin) tries to delete experiment 5 owned
by user 7; the call fails as unauthorized and changes nothing. -/
theorem c5_witness :
    delete_experiment c4World 5 (some 8) (some "mallory") false =
      (c4World, { success := false, unauthorized := true }) :=
  c5_unauthorized_delete_no_mutation c4World 5 (some 8) (some "mallory")
    { id := 5, owner_id := some 7 } (by decide)
    (by intro hex; rcases hex with ⟨o, ho, hu⟩; simp at ho hu; omega)

theorem length_filterMap_eq_countP (f : α → Option β) (l : List α) :
    (l.filterMap f).length = l.countP (fun a => (f a).isSome) := by
  induction l with
  | nil => rfl
  | cons a l ih =>
    rw [List.filterMap_cons, List.countP_cons]
    cases hf : f a with
    | none => simp [hf, ih]
    | some b => simp [hf, ih]

theorem countP_ext (p q : α → Bool) (h : ∀ a, p a = q a) (l : List α) :
    l.countP p = l.countP q := by
  induction l with
  | nil => rfl
  | cons a l ih => rw [List.countP_cons, List.countP_cons, h a, ih]

theorem benchRowsOf_length (eid : Nat) (rows : List HappyRow) :
    (benchRowsOf eid rows).length =
      rows.countP (fun r => (RegionType.from_string (some r.subsetVal)).isSome) := by
  unfold benchRowsOf
  rw [length_filterMap_eq_countP]
  apply countP_ext
  intro r
  cases hr : RegionType.from_string (some r.subsetVal) <;> simp [hr]

theorem overallRowsOf_length (eid : Nat) (rows : List HappyRow) :
    (overallRowsOf eid rows).length =
      rows.countP (fun r => RegionType.from_string (some r.subsetVal) ==
        some RegionType.ALL) := by
  unfold overallRowsOf
  rw [length_filterMap_eq_countP]
  apply countP_ext
  intro r
  cases hr : RegionType.from_string (some r.subsetVal) with
  | none => simp [hr]
  | some reg =>
    by_cases hreg : reg = RegionType.ALL
    · subst hreg; simp [hr]
    · simp [hr, hreg]

/-- C6: on a fresh experiment, `parse_happy_csv` appends exactly one
BenchmarkResult row per retained row (`Subtype='*'`, `Filter='ALL'`) whose
region label is recognized, plus exactly one OverallResult row per retained
row whose region code is the whole-genome code `RegionType.ALL`, and reports
a non-skipped success.  (The witness instantiates the SNP/INDEL-at-`'*'`
file: 2 BenchmarkResult and 2 OverallResult rows.) -/
theorem c6_parse_row_counts
    (dataFiles : List (String × HappyFile)) (fn : String) (eid : Nat) (db : DB)
    (f : HappyFile)
    (hb : ∀ r ∈ db.benchmarkResults, r.experiment_id ≠ eid)
    (ho : ∀ r ∈ db.overallResults, r.experiment_id ≠ eid)
    (hf : lookupFile dataFiles fn = some f)
    (hv : validate_happy_data f = true)
    (hne : happyFilteredRows f ≠ []) :
    (parse_happy_csv dataFiles fn eid db).1.benchmarkResults =
      db.benchmarkResults ++ benchRowsOf eid (happyFilteredRows f) ∧
    (parse_happy_csv dataFiles fn eid db).1.overallResults =
      db.overallResults ++ overallRowsOf eid (happyFilteredRows f) ∧
    (benchRowsOf eid (happyFilteredRows f)).length =
      (happyFilteredRows f).countP
        (fun r => (RegionType.from_string (some r.subsetVal)).isSome) ∧
    (overallRowsOf eid (happyFilteredRows f)).length =
      (happyFilteredRows f).countP
        (fun r => RegionType.from_string (some r.subsetVal) == some RegionType.ALL) ∧
    (parse_happy_csv dataFiles fn eid db).2 = { success := true, skipped := false } := by
  have hguard : ((db.benchmarkResults.find? (fun r => r.experiment_id == eid)).isSome ||
      (db.overallResults.find? (fun r => r.experiment_id == eid)).isSome) = false := by
    apply Bool.or_eq_false_iff.mpr
    constructor
    · apply Bool.eq_false_iff.mpr
      intro hsome
      rcases List.find?_isSome.mp hsome with ⟨r, hr, hp⟩
      exact hb r hr (by simpa using hp)
    · apply Bool.eq_false_iff.mpr
      intro hsome
      rcases List.find?_isSome.mp hsome with ⟨r, hr, hp⟩
      exact ho r hr (by simpa using hp)
  have hparse : parse_happy_csv dataFiles fn eid db =
      ({ db with
          benchmarkResults := db.benchmarkResults ++ benchRowsOf eid (happyFilteredRows f)
          overallResults := db.overallResults ++ overallRowsOf eid (happyFilteredRows f) },
       { success := true, skipped := false }) := by
    unfold parse_happy_csv
    rw [if_neg (by rw [hguard]; exact Bool.false_ne_true), hf]
    show (if (!validate_happy_data f) = true then _ else _) = _
    rw [if_neg (by rw [hv]; simp)]
    show (if (happyFilteredRows f).isEmpty = true then _ else _) = _
    rw [if_neg (by simpa using hne)]
  refine ⟨by rw [hparse], by rw [hparse], benchRowsOf_length eid _,
    overallRowsOf_length eid _, by rw [hparse]⟩

/-- Witness for C6: parsing the SNP/INDEL-at-region-`'*'` file for fresh
experiment 9 appends exactly 2 BenchmarkResult rows and 2 OverallResult
rows. -/
theorem c6_witness :
    (parse_happy_csv c6DataFiles "009_sample.csv" 9 {}).1.benchmarkResults.length = 2 ∧
    (parse_happy_csv c6DataFiles "009_sample.csv" 9 {}).1.overallResults.length = 2 ∧
    (parse_happy_csv c6DataFiles "009_sample.csv" 9 {}).2 =
      { success := true, skipped := false } := by
  have h := c6_parse_row_counts c6DataFiles "009_sample.csv" 9 {} sampleFile
    (by intro r hr; simp [DB.benchmarkResults] at hr)
    (by intro r hr; simp [DB.overallResults] at hr)
    (by decide) (by decide) (by decide)
  refine ⟨?_, ?_, h.2.2.2.2⟩
  · rw [h.1]; decide
  · rw [h.2.1]; decide

/-- C8: (1) a caller-supplied identifier that is already occupied makes
`create_experiment_direct` return a structured failure with the database
unchanged; (2) a public auto-assigned identifier lies in 1–999; (3) when the
public range is exhausted a structured error is raised instead; (4) a
private auto-assigned identifier is ≥ 1000 — so the two ranges stay
disjoint. -/
theorem c8_identifier_determination :
    (∀ (db : DB) (dfs : List (String × HappyFile)) (md : DbMeta) (id : Nat)
        (fn : Option String),
      (∃ e ∈ db.experiments, e.id = id) →
      create_experiment_direct db dfs md (some id) fn = (db, { success := false })) ∧
    (∀ (db : DB) (n : Nat),
      get_next_experiment_id true db = Except.ok n → 1 ≤ n ∧ n ≤ 999) ∧
    (∀ db : DB, 999 ≤ maxPublicId db →
      get_next_experiment_id true db = Except.error pubExhaustedMsg) ∧
    (∀ (db : DB) (n : Nat),
      get_next_experiment_id false db = Except.ok n → 1000 ≤ n) := by
  refine ⟨?_, fun db n h => get_next_public_range h,
    fun db h => get_next_public_exhausted h,
    fun db n h => get_next_private_ge h⟩
  intro db dfs md id fn hocc
  rcases hocc with ⟨e, he, hid⟩
  have hcond : (db.experiments.find? (fun x => x.id == id)).isSome = true :=
    List.find?_isSome.mpr ⟨e, he, by simp [hid]⟩
  simp only [create_experiment_direct, Option.getD_some]
  rw [if_pos hcond]

/-- Witness for C8: identifier 42 is occupied so creation fails with the
database unchanged; in an empty database the public allocator yields 1 and
the private allocator yields 1000; with public id 999 taken the public
allocator raises the exhaustion error. -/
theorem c8_witness :
    (create_experiment_direct c8OccupiedDb [] {} (some 42) none =
      (c8OccupiedDb, { success := false })) ∧
    (1 ≤ 1 ∧ (1 : Nat) ≤ 999) ∧
    (get_next_experiment_id true c8FullPublicDb = Except.error pubExhaustedMsg) ∧
    (1000 : Nat) ≤ 1000 :=
  ⟨c8_identifier_determination.1 c8OccupiedDb [] {} 42 none
      ⟨{ id := 42 }, by decide, by decide⟩,
   c8_identifier_determination.2.1 ({} : DB) 1 rfl,
   c8_identifier_determination.2.2.1 c8FullPublicDb (by decide),
   c8_identifier_determination.2.2.2 ({} : DB) 1000 rfl⟩

/-- C9 counterexample: the metadata `c9Meta` carries the unrecognized
truth-set name `"FOO"` (a required field, present and non-blank), yet
`validate_metadata` reports it valid, the upload succeeds, and the created
experiment simply has a null truth-set link — contradicting the claim that
an unrecognized truth-set name causes metadata validation to fail. -/
theorem c9_unknown_truth_set_passes_validation :
    (validate_metadata c9Meta).1 = true ∧
    mapTruthSetName (some ((prepare_metadata_dict c9Meta).truth_set_name)) = none ∧
    (process_upload_direct {} (some sampleFile) (some c9Meta)).2.success = true ∧
    (∃ e ∈ (process_upload_direct {} (some sampleFile) (some c9Meta)).1.db.experiments,
      e.truth_set_id = none) := by
  refine ⟨?_, ?_, ?_, ?_⟩ <;> decide

/-- C9 as amended: an unrecognized technology or caller value (any casing)
fails metadata validation, and a failed validation makes
`process_upload_direct` return failure with the world unchanged; an
unrecognized truth-set name, by contrast, is silently treated like an
optional category — `create_truth_set` creates no row and the dimension
link stays null — as is an unrecognized optional benchmark-tool name. -/
theorem c9_amended_required_category_validation :
    (∀ md : Meta, ¬ VALID_TECHNOLOGIES.contains (strUpper (md.technology.getD "")) = true →
      (validate_metadata md).1 = false) ∧
    (∀ md : Meta, ¬ VALID_CALLERS.contains (strUpper (md.caller_name.getD "")) = true →
      (validate_metadata md).1 = false) ∧
    (∀ (w : World) (file : Option HappyFile) (md : Meta),
      (validate_metadata md).1 = false →
      process_upload_direct w file (some md) = (w, failUpload)) ∧
    (∀ (table : List TruthSetRow) (md : DbMeta),
      mapTruthSetName (some md.truth_set_name) = none →
      create_truth_set table md = (none, table)) ∧
    (∀ (table : List BenchmarkToolRow) (md : DbMeta),
      mapBenchmarkToolName (some md.benchmark_tool_name) = none →
      create_benchmark_tool table md = (none, table)) := by
  refine ⟨?_, ?_, ?_, ?_, ?_⟩
  · intro md h
    have hc : VALID_TECHNOLOGIES.contains (strUpper (md.technology.getD "")) = false :=
      Bool.eq_false_iff.mpr h
    unfold validate_metadata
    split
    · rfl
    · rw [if_pos (by rw [hc]; rfl)]
  · intro md h
    have hc : VALID_CALLERS.contains (strUpper (md.caller_name.getD "")) = false :=
      Bool.eq_false_iff.mpr h
    unfold validate_metadata
    split
    · rfl
    · split
      · rfl
      · rw [if_pos (by rw [hc]; rfl)]
  · intro w file md h
    cases file with
    | none => rfl
    | some f =>
      simp only [process_upload_direct]
      split
      · rfl
      · rw [if_pos (by rw [h]; rfl)]
  · intro table m h
    simp only [create_truth_set, h]
  · intro table m h
    simp only [create_benchmark_tool, h]

/-- Witness for the amended C9: an unknown technology and an unknown caller
fail validation; the unknown-technology upload is a no-op failure; the
`"FOO"` truth set and a `"weirdtool"` benchmark tool yield no dimension
row. -/
theorem c9_witness :
    (validate_metadata { sampleMeta with technology := some "solexa" }).1 = false ∧
    (validate_metadata { sampleMeta with caller_name := some "varscan" }).1 = false ∧
    process_upload_direct {} (some sampleFile)
        (some { sampleMeta with technology := some "solexa" }) = ({}, failUpload) ∧
    create_truth_set [] (prepare_metadata_dict c9Meta) = (none, []) ∧
    create_benchmark_tool [] { benchmark_tool_name := "weirdtool" } = (none, []) :=
  ⟨c9_amended_required_category_validation.1 _ (by decide),
   c9_amended_required_category_validation.2.1 _ (by decide),
   c9_amended_required_category_validation.2.2.1 {} (some sampleFile) _ (by decide),
   c9_amended_required_category_validation.2.2.2.1 [] _ (by decide),
   c9_amended_required_category_validation.2.2.2.2 [] _ (by decide)⟩

/-- C10: when a non-admin upload requests public visibility, the call is not
rejected: the metadata is rewritten to private before processing, and any
experiment it creates is private — `is_public = false` and its identifier
lies in the private range (≥ 1000). -/
theorem c10_non_admin_public_downgrade
    (w : World) (file : Option HappyFile) (md : Meta) (uname : Option String)
    (hvis : md.experiment_visibility = some "public") :
    upload_experiment_v2 w file (some md) uname false =
      process_upload_direct w file
        (some { md with experiment_visibility := some "private" }) ∧
    ((upload_experiment_v2 w file (some md) uname false).2.success = true →
      (upload_experiment_v2 w file (some md) uname false).2.is_public = some false ∧
      ∃ n, (upload_experiment_v2 w file (some md) uname false).2.experiment_id = some n ∧
        1000 ≤ n ∧
        ∃ e ∈ (upload_experiment_v2 w file (some md) uname false).1.db.experiments,
          e.id = n ∧ e.is_public = false) := by
  have heq : upload_experiment_v2 w file (some md) uname false =
      process_upload_direct w file
        (some { md with experiment_visibility := some "private" }) := by
    simp only [upload_experiment_v2, hvis]
    rfl
  refine ⟨heq, ?_⟩
  rw [heq]
  have hpub : (prepare_metadata_dict
      { md with experiment_visibility := some "private" }).is_public = false := rfl
  cases file with
  | none => intro h; simp [process_upload_direct, failUpload] at h
  | some f =>
    simp only [process_upload_direct]
    split
    · intro h; simp [failUpload] at h
    · split
      · intro h; simp [failUpload] at h
      · split
        · intro h; simp [failUpload] at h
        · rename_i eid hnext
          split
          · intro hdone
            rename_i hsucc
            rw [hpub] at hnext
            obtain ⟨hid, e, hmem, heid, hepub⟩ :=
              create_experiment_success_spec Prod.mk.eta.symm hsucc
            refine ⟨by rw [hpub], eid, rfl, get_next_private_ge hnext, e, hmem, heid, ?_⟩
            rw [hepub, hpub]
          · intro h; simp [failUpload] at h

/-- Witness for C10: a non-admin upload requesting public visibility
succeeds as a private experiment with identifier 1000. -/
theorem c10_witness :
    (upload_experiment_v2 {} (some sampleFile) (some c10Meta)
        (some "alice") false).2.is_public = some false ∧
    ∃ n, (upload_experiment_v2 {} (some sampleFile) (some c10Meta)
        (some "alice") false).2.experiment_id = some n ∧ 1000 ≤ n := by
  have h := (c10_non_admin_public_downgrade {} (some sampleFile) c10Meta
    (some "alice") rfl).2 (by decide)
  exact ⟨h.1, h.2.imp (fun n hn => ⟨hn.1, hn.2.1⟩)⟩

end SnvDash
